import Mathlib

/-!
Verification of the caching subsystem of the `smartsheet-agent` repository.

The development shallowly embeds, in Lean, the module-level TTL cache of
`smartsheet_tools.py` (the global `_cache` dict, `clear_cache`,
`get_smartsheet_client`, `_get_sheets_list_cached`, `_resolve_sheet_id`,
the sheet-scoping helpers, and the user-facing tools `list_sheets` and
`get_sheet`), the parallel fan-out of `workflows.py`
(`run_parallel_tools`), and — modelled from the specification, because the
optimized tools module that `workflows.py` imports
(`smartsheet_tools_optimized.py`) is absent from the source tree — the
two-tier `MultiLevelCache` (`L1Store`/`L2Store`).

Python wall-clock times are embedded as `Nat`; module-global mutable state
is embedded as explicit state passing; Python functions that can raise are
embedded as functions returning `Except String α` paired with the state
they leave behind (a raised exception does not roll back writes to the
global dict that happened before the raise).  Python truthiness of the
values involved is embedded explicitly: `None` is `Option.none`, an empty
string and an empty list are falsy, the integer `0` is falsy.
-/

namespace SmartsheetAgent

/-- Insertion-ordered association-list update, matching the semantics of a
Python `dict` assignment `m[k] = v`: an existing key keeps its position and
gets the new value, a new key is appended at the end. -/
def upsert {α β : Type} [DecidableEq α] (m : List (α × β)) (k : α) (v : β) : List (α × β) :=
  match m with
  | [] => [(k, v)]
  | (k', v') :: rest => if k' = k then (k, v) :: rest else (k', v') :: upsert rest k v

/-- Association-list lookup, matching Python `k in m` / `m[k]`. -/
def alookup {α β : Type} [DecidableEq α] (m : List (α × β)) (k : α) : Option β :=
  match m with
  | [] => none
  | (k', v') :: rest => if k' = k then some v' else alookup rest k

/-- Python `str.strip()`: leading and trailing whitespace removed
(character-list implementation). -/
def pyStrip (s : String) : String :=
  String.mk (((s.data.dropWhile Char.isWhitespace).reverse.dropWhile Char.isWhitespace).reverse)

/-- Python `str.lower()` (character-list implementation). -/
def pyLower (s : String) : String :=
  String.mk (s.data.map Char.toLower)

/-- The worker of `splitOnChar`: accumulate the current fragment until the
separator. -/
def splitOnCharGo (sep : Char) : List Char → List Char → List String
  | [], acc => [String.mk acc.reverse]
  | c :: cs, acc =>
    if c = sep then String.mk acc.reverse :: splitOnCharGo sep cs []
    else splitOnCharGo sep cs (c :: acc)

/-- Python `str.split(sep)` for a one-character separator:
`"".split(",") = [""]`, separators delimit possibly-empty fragments. -/
def splitOnChar (sep : Char) (s : String) : List String :=
  splitOnCharGo sep s.data []

/-- Python `int(s)` on an all-digit string (character-list
implementation). -/
def pyToNat (s : String) : Nat :=
  s.data.foldl (fun n c => n * 10 + (c.toNat - 48)) 0

/-- A sheet as observed by the tools layer: the attributes of the SDK
object that `smartsheet_tools.py` reads. -/
structure Sheet where
  id : Nat
  name : String
  accessLevel : String
  createdAt : Option String
  modifiedAt : Option String
deriving DecidableEq

/-- An authenticated Smartsheet client (`smartsheet.Smartsheet(token)`);
only the token it was created from is observable in the embedding. -/
structure Client where
  token : String
deriving DecidableEq

/-- Embedding of the module-global `_cache` dict of `smartsheet_tools.py`
(lines 79-86) together with two instrumentation counters that count the
upstream invocations (client creations and `client.Sheets.list_sheets`
calls); the counters embed the observable "the upstream function was
invoked", they are not part of the Python dict and are left untouched by
`clear_cache`. -/
structure CacheState where
  client : Option Client
  clientCreatedAt : Nat
  sheetsList : Option (List Sheet)
  sheetsListFetchedAt : Nat
  nameToId : List (String × (Nat × String × Nat))
  clientCreateCount : Nat
  sheetsFetchCount : Nat
deriving DecidableEq

/-- The initial value of the `_cache` dict (counters zero). -/
def initialCacheState : CacheState :=
  { client := none
    clientCreatedAt := 0
    sheetsList := none
    sheetsListFetchedAt := 0
    nameToId := []
    clientCreateCount := 0
    sheetsFetchCount := 0 }

/-- Embedding of `_is_cache_valid` (smartsheet_tools.py lines 89-91):
`time.time() - fetched_at < CACHE_TTL_SECONDS`, on `Nat` time. -/
def is_cache_valid (ttl now fetchedAt : Nat) : Bool :=
  now - fetchedAt < ttl

/-- Embedding of `clear_cache` (smartsheet_tools.py lines 94-104): the
global dict is replaced by a fresh initial dict.  The instrumentation
counters are not program state and are carried over. -/
def clear_cache (s : CacheState) : CacheState :=
  { s with
    client := none
    clientCreatedAt := 0
    sheetsList := none
    sheetsListFetchedAt := 0
    nameToId := [] }

/-- Environment variables read by `smartsheet_tools.py`: a missing
variable is `none` for the token and `""` for the scoping variables
(`os.getenv(name, "")`). -/
structure Env where
  token : Option String
  allowedIdsRaw : String
  allowedNamesRaw : String

/-- Embedding of `get_smartsheet_client` (smartsheet_tools.py lines
146-172).  Python truthiness: the cached client is served when it is not
`None` and still valid; a missing or empty token raises `ValueError`
before any state is written; otherwise a client is created and cached. -/
def get_smartsheet_client (ttl : Nat) (env : Env) (now : Nat) (s : CacheState) :
    Except String Client × CacheState :=
  match s.client with
  | some c =>
    if is_cache_valid ttl now s.clientCreatedAt then (Except.ok c, s)
    else createClient ttl env now s
  | none => createClient ttl env now s
where
  /-- The fresh-creation branch of `get_smartsheet_client`. -/
  createClient (_ttl : Nat) (env : Env) (now : Nat) (s : CacheState) :
      Except String Client × CacheState :=
    match env.token with
    | none => (Except.error "SMARTSHEET_ACCESS_TOKEN environment variable is not set", s)
    | some tok =>
      if tok = "" then
        (Except.error "SMARTSHEET_ACCESS_TOKEN environment variable is not set", s)
      else
        let c : Client := { token := tok }
        (Except.ok c,
          { s with
            client := some c
            clientCreatedAt := now
            clientCreateCount := s.clientCreateCount + 1 })

/-- The loop at smartsheet_tools.py lines 197-202: for every fetched sheet,
`_cache["sheet_name_to_id"][sheet.name.lower()] = (sheet.id, sheet.name, now)`.
Keys are only added or overwritten, never removed. -/
def updateNames (m : List (String × (Nat × String × Nat))) (l : List Sheet) (now : Nat) :
    List (String × (Nat × String × Nat)) :=
  match l with
  | [] => m
  | sh :: rest => updateNames (upsert m (pyLower sh.name) (sh.id, sh.name, now)) rest now

/-- Embedding of `_get_sheets_list_cached` (smartsheet_tools.py lines
175-204).  The guard is the Python truthiness test
`if _cache["sheets_list"] and _is_cache_valid(...)`: a cached empty list
is falsy and is never served.  On a miss the upstream
`client.Sheets.list_sheets` call runs (`upstream` is its outcome); a raise
leaves the dict untouched, a success stores the list, stamps it, and
populates the name-to-id map. -/
def get_sheets_list_cached (ttl : Nat) (upstream : Except String (List Sheet))
    (now : Nat) (s : CacheState) : Except String (List Sheet) × CacheState :=
  match s.sheetsList with
  | some l =>
    if l ≠ [] ∧ is_cache_valid ttl now s.sheetsListFetchedAt then (Except.ok l, s)
    else fetchFresh upstream now s
  | none => fetchFresh upstream now s
where
  /-- The fetch-and-store branch of `_get_sheets_list_cached`. -/
  fetchFresh (upstream : Except String (List Sheet)) (now : Nat) (s : CacheState) :
      Except String (List Sheet) × CacheState :=
    match upstream with
    | Except.error e => (Except.error e, { s with sheetsFetchCount := s.sheetsFetchCount + 1 })
    | Except.ok l =>
      (Except.ok l,
        { s with
          sheetsList := some l
          sheetsListFetchedAt := now
          nameToId := updateNames s.nameToId l now
          sheetsFetchCount := s.sheetsFetchCount + 1 })

/-- Python `str.isdigit` restricted to ASCII digits: true when the string
is non-empty and every character is a digit. -/
def isDigitString (s : String) : Bool :=
  !s.data.isEmpty && s.data.all Char.isDigit

/-- The scan at smartsheet_tools.py lines 229-233: the first sheet whose
lowered name matches wins, else `(None, None)`. -/
def resolveFromList (l : List Sheet) (nameLower : String) : Option Nat × Option String :=
  match l with
  | [] => (none, none)
  | sh :: rest =>
    if pyLower sh.name = nameLower then (some sh.id, some sh.name)
    else resolveFromList rest nameLower

/-- Embedding of `_resolve_sheet_id` (smartsheet_tools.py lines 207-233).
A numeric id string is returned as `(int(sheet_id), None)` without any
cache access; otherwise the name-to-id map is consulted, an entry is
served only when its timestamp is still valid, and on a miss (absent or
expired — the expired entry is left in the map) the sheets list is
consulted through `get_sheets_list_cached` and scanned. -/
def resolve_sheet_id (ttl : Nat) (upstream : Except String (List Sheet))
    (now : Nat) (s : CacheState) (sheetId : String) :
    Except String (Option Nat × Option String) × CacheState :=
  if isDigitString sheetId then
    (Except.ok (some (pyToNat sheetId), none), s)
  else
    let nameLower := pyLower sheetId
    match alookup s.nameToId nameLower with
    | some (cachedId, cachedName, fetchedAt) =>
      if is_cache_valid ttl now fetchedAt then
        (Except.ok (some cachedId, some cachedName), s)
      else resolveViaList ttl upstream now s nameLower
    | none => resolveViaList ttl upstream now s nameLower
where
  /-- The fall-through path of `_resolve_sheet_id`: fetch (or reuse) the
  sheets list and scan it for the name. -/
  resolveViaList (ttl : Nat) (upstream : Except String (List Sheet))
      (now : Nat) (s : CacheState) (nameLower : String) :
      Except String (Option Nat × Option String) × CacheState :=
    match get_sheets_list_cached ttl upstream now s with
    | (Except.error e, s') => (Except.error e, s')
    | (Except.ok l, s') => (Except.ok (resolveFromList l nameLower), s')

/-- Embedding of the body of `_get_allowed_sheet_ids` (smartsheet_tools.py
lines 111-117): an unset or blank `ALLOWED_SHEET_IDS` gives the empty set,
otherwise the comma-separated digit-only fragments are collected. -/
def parseAllowedIds (raw : String) : List Nat :=
  if pyStrip raw = "" then []
  else
    (splitOnChar ',' raw).filterMap fun t =>
      if isDigitString (pyStrip t) then some (pyToNat (pyStrip t)) else none

/-- Embedding of the body of `_get_allowed_sheet_names` (smartsheet_tools.py
lines 120-126): an unset or blank `ALLOWED_SHEET_NAMES` gives the empty
set, otherwise the trimmed, lowered, non-blank fragments are collected. -/
def parseAllowedNames (raw : String) : List String :=
  if pyStrip raw = "" then []
  else
    (splitOnChar ',' raw).filterMap fun t =>
      if pyStrip t = "" then none else some (pyLower (pyStrip t))

/-- Embedding of `_is_sheet_allowed` (smartsheet_tools.py lines 129-143)
over already-resolved allowed sets.  Python truthiness in the guards:
`if sheet_id and sheet_id in allowed_ids` is false for `None` and for the
id `0`; `if sheet_name and ...` is false for `None` and for `""`. -/
def is_sheet_allowed (allowedIds : List Nat) (allowedNames : List String)
    (sheetId : Option Nat) (sheetName : Option String) : Bool :=
  if allowedIds.isEmpty && allowedNames.isEmpty then true
  else if (match sheetId with
    | some i => decide (i ≠ 0) && allowedIds.contains i
    | none => false) then true
  else
    match sheetName with
    | some n => decide (n ≠ "") && allowedNames.contains (pyLower n)
    | none => false

/-- Module state of `smartsheet_tools.py`: the `_cache` dict plus the two
`functools.lru_cache(maxsize=1)` memo cells on the zero-argument functions
`_get_allowed_sheet_ids` and `_get_allowed_sheet_names` (a populated cell
is served without re-reading the environment). -/
structure ModuleState where
  cache : CacheState
  allowedIdsMemo : Option (List Nat)
  allowedNamesMemo : Option (List String)
deriving DecidableEq

/-- Embedding of `_get_allowed_sheet_ids` (smartsheet_tools.py lines
111-117) including its `lru_cache(maxsize=1)`: the first call computes
from the environment and memoizes; later calls return the memo and never
look at the environment again. -/
def get_allowed_sheet_ids (env : Env) (ms : ModuleState) : List Nat × ModuleState :=
  match ms.allowedIdsMemo with
  | some v => (v, ms)
  | none =>
    let v := parseAllowedIds env.allowedIdsRaw
    (v, { ms with allowedIdsMemo := some v })

/-- Embedding of `_get_allowed_sheet_names` (smartsheet_tools.py lines
120-126) including its `lru_cache(maxsize=1)` memo. -/
def get_allowed_sheet_names (env : Env) (ms : ModuleState) : List String × ModuleState :=
  match ms.allowedNamesMemo with
  | some v => (v, ms)
  | none =>
    let v := parseAllowedNames env.allowedNamesRaw
    (v, { ms with allowedNamesMemo := some v })

/-- Embedding of `clear_cache` at module level: it reassigns only the `_cache` dict;
the `lru_cache` memo cells of the scoping helpers are distinct objects and
are untouched (the function body, lines 94-104, never calls
`cache_clear`). -/
def clear_cache_module (ms : ModuleState) : ModuleState :=
  { ms with cache := clear_cache ms.cache }

/-- One formatted line of the `list_sheets` output
(smartsheet_tools.py line 279). -/
def formatSheetLine (sh : Sheet) : String :=
  "- " ++ sh.name ++ " (ID: " ++ toString sh.id ++ ", Access: " ++ sh.accessLevel ++ ")\n"

/-- The formatting tail of `list_sheets` (smartsheet_tools.py lines
274-281): the no-sheets message, or the header plus one line per sheet. -/
def formatSheetsResult (sheets : List Sheet) : String :=
  if sheets.isEmpty then "No sheets available in the configured scope."
  else
    "Found " ++ toString sheets.length ++ " sheets:\n"
      ++ String.join (sheets.map formatSheetLine)

/-- Embedding of the tool `list_sheets` (smartsheet_tools.py lines
240-283).  The whole body sits in `try/except Exception`, so every raise
of an inner step becomes the returned string
`"Error listing sheets: " ++ e`; with `use_cache=False` the whole module
cache is cleared before the fresh (uncached) fetch. -/
def list_sheets (ttl : Nat) (env : Env) (upstream : Except String (List Sheet))
    (now : Nat) (useCache : Bool) (ms : ModuleState) : String × ModuleState :=
  match get_smartsheet_client ttl env now ms.cache with
  | (Except.error e, c1) => ("Error listing sheets: " ++ e, { ms with cache := c1 })
  | (Except.ok _, c1) =>
    match fetchAll ttl upstream now useCache c1 with
    | (Except.error e, c2) => ("Error listing sheets: " ++ e, { ms with cache := c2 })
    | (Except.ok allSheets, c2) =>
      let ms2 := { ms with cache := c2 }
      let idsRes := get_allowed_sheet_ids env ms2
      let namesRes := get_allowed_sheet_names env idsRes.2
      let sheets := allSheets.filter fun sh =>
        is_sheet_allowed idsRes.1 namesRes.1 (some sh.id) (some sh.name)
      (formatSheetsResult sheets, namesRes.2)
where
  /-- Lines 255-260 of `list_sheets`: the cached path, or
  `clear_cache()` followed by a direct `client.Sheets.list_sheets` call
  that stores nothing. -/
  fetchAll (ttl : Nat) (upstream : Except String (List Sheet)) (now : Nat)
      (useCache : Bool) (c : CacheState) : Except String (List Sheet) × CacheState :=
    if useCache then get_sheets_list_cached ttl upstream now c
    else
      let c' := clear_cache c
      match upstream with
      | Except.error e => (Except.error e, c')
      | Except.ok l => (Except.ok l, c')

/-- A column of a fetched sheet (`col.id`, `col.title`). -/
structure Column where
  id : Nat
  title : String
deriving DecidableEq

/-- A cell of a fetched sheet; `displayValue`/`value` are `None`-able. -/
structure Cell where
  columnId : Nat
  displayValue : Option String
  value : Option String
deriving DecidableEq

/-- A row of a fetched sheet. -/
structure Row where
  id : Nat
  rowNumber : Nat
  cells : List Cell
deriving DecidableEq

/-- The sheet object returned by `client.Sheets.get_sheet` as read by the
`get_sheet` tool. -/
structure SheetData where
  name : String
  columns : List Column
  rows : List Row
deriving DecidableEq

/-- Python `cell.display_value or cell.value` (smartsheet_tools.py line 317):
Python `or` falls through on a `None` or empty display value. -/
def cellValue (c : Cell) : Option String :=
  match c.displayValue with
  | some d => if d = "" then c.value else some d
  | none => c.value

/-- Embedding of `columns = {col.id: col.title for col in sheet.columns}`
(smartsheet_tools.py line 309). -/
def columnsMap (cols : List Column) : List (Nat × String) :=
  cols.foldl (fun m c => upsert m c.id c.title) []

/-- Embedding of `columns.get(cell.column_id, f"Column_{cell.column_id}")`
(smartsheet_tools.py line 316). -/
def colName (m : List (Nat × String)) (cid : Nat) : String :=
  (alookup m cid).getD ("Column_" ++ toString cid)

/-- The cell-to-name-value dict of one row (smartsheet_tools.py lines
314-317), keeping only the cell entries (the `row_id`/`row_number` keys
are filtered back out by the formatter). -/
def rowPairs (m : List (Nat × String)) (cells : List Cell) :
    List (String × Option String) :=
  cells.foldl (fun acc c => upsert acc (colName m c.columnId) (cellValue c)) []

/-- Embedding of the `" | ".join(f"{k}: {v}" ...)` row text over the non-`None` entries
(smartsheet_tools.py lines 327-330). -/
def rowStr (pairs : List (String × Option String)) : String :=
  String.intercalate " | "
    (pairs.filterMap fun p => p.2.map fun w => p.1 ++ ": " ++ w)

/-- One `  Row {n}: {row_str}` line (smartsheet_tools.py line 331). -/
def rowLine (m : List (Nat × String)) (r : Row) : String :=
  "  Row " ++ toString r.rowNumber ++ ": " ++ rowStr (rowPairs m r.cells) ++ "\n"

/-- The formatting tail of `get_sheet` (smartsheet_tools.py lines
308-333). -/
def formatSheetData (sd : SheetData) : String :=
  "Sheet: " ++ sd.name ++ "\n"
    ++ "Total Rows: " ++ toString sd.rows.length ++ "\n"
    ++ "Columns: " ++ String.intercalate ", " (sd.columns.map Column.title) ++ "\n\n"
    ++ (if sd.rows.isEmpty then ""
        else "Data:\n" ++ String.join (sd.rows.map (rowLine (columnsMap sd.columns))))

/-- Embedding of the tool `get_sheet` (smartsheet_tools.py lines 286-335).
The empty-argument guard (`if not sheet_id`) returns before the `try`;
everything else sits inside `try/except Exception`, each raise becoming
`"Error getting sheet: " ++ e`.  `if not resolved_id` treats both `None`
and the id `0` as not found;  the access-denied message uses the Python
`or` fallback `sheet_name_resolved or sheet_id`. -/
def get_sheet (ttl : Nat) (env : Env) (upstream : Except String (List Sheet))
    (sheetFetch : Except String SheetData) (now : Nat) (ms : ModuleState)
    (sheetId : String) : String × ModuleState :=
  if sheetId = "" then ("Error: sheet_id parameter is required", ms)
  else
    match get_smartsheet_client ttl env now ms.cache with
    | (Except.error e, c1) => ("Error getting sheet: " ++ e, { ms with cache := c1 })
    | (Except.ok _, c1) =>
      match resolve_sheet_id ttl upstream now c1 sheetId with
      | (Except.error e, c2) => ("Error getting sheet: " ++ e, { ms with cache := c2 })
      | (Except.ok (resolvedId, resolvedName), c2) =>
        let ms2 := { ms with cache := c2 }
        match resolvedId with
        | none => ("Error: Sheet '" ++ sheetId ++ "' not found", ms2)
        | some rid =>
          if rid = 0 then ("Error: Sheet '" ++ sheetId ++ "' not found", ms2)
          else
            let idsRes := get_allowed_sheet_ids env ms2
            let namesRes := get_allowed_sheet_names env idsRes.2
            if !is_sheet_allowed idsRes.1 namesRes.1 (some rid) resolvedName then
              let shown :=
                match resolvedName with
                | some n => if n = "" then sheetId else n
                | none => sheetId
              ("Error: Access to sheet '" ++ shown ++ "' is not permitted.", namesRes.2)
            else
              match sheetFetch with
              | Except.error e => ("Error getting sheet: " ++ e, namesRes.2)
              | Except.ok sd => (formatSheetData sd, namesRes.2)

/-- One entry of the list returned by `run_parallel_tools`
(workflows.py lines 70-80): `tool_name`, `result`, `error`. -/
structure ToolResult where
  toolName : String
  result : Option String
  error : Option String
deriving DecidableEq

deriving instance DecidableEq for Except

/-- A call submitted to the thread pool by `run_parallel_tools`: its
tool name and, when it completes, the wall-clock instant (seconds from
batch start) and outcome of `future.result()` — `none` for a call that
never completes within any window of interest. -/
structure SubmittedCall where
  name : String
  completion : Option (Nat × Except String String)
deriving DecidableEq

/-- Whether a submitted call has completed by the batch deadline. -/
def callDone (timeout : Nat) (c : SubmittedCall) : Bool :=
  match c.completion with
  | some (t, _) => t ≤ timeout
  | none => false

/-- The entry appended for a completed future (workflows.py lines 68-80):
a normal result gives `{result, error=None}`, a raising call gives
`{result=None, error=str(e)}`. -/
def entryOf (c : SubmittedCall) : ToolResult :=
  match c.completion with
  | some (_, Except.ok r) => { toolName := c.name, result := some r, error := none }
  | some (_, Except.error e) => { toolName := c.name, result := none, error := some e }
  | none => { toolName := c.name, result := none, error := none }

/-- Completion instant of a call (`0` for a never-completing call; only
used to order calls that did complete). -/
def completionTime (c : SubmittedCall) : Nat :=
  match c.completion with
  | some (t, _) => t
  | none => 0

/-- Insertion into a completion-time-ordered list. -/
def insertByTime (c : SubmittedCall) : List SubmittedCall → List SubmittedCall
  | [] => [c]
  | d :: ds =>
    if completionTime c ≤ completionTime d then c :: d :: ds
    else d :: insertByTime c ds

/-- Completion-time ordering of the submitted calls: `as_completed`
yields futures in the order they finish. -/
def sortByTime : List SubmittedCall → List SubmittedCall
  | [] => []
  | c :: cs => insertByTime c (sortByTime cs)

/-- Embedding of `run_parallel_tools` (workflows.py lines 39-82).  The
`for future in as_completed(futures, timeout=timeout)` iterator raises
`concurrent.futures.TimeoutError` when the deadline passes with futures
still pending; that raise happens at the `for` statement, outside the
per-future `try/except`, so it propagates out of the function and the
partially built `results` list is discarded.  When every call completes
in time, the entries are collected in completion order. -/
def run_parallel_tools (calls : List SubmittedCall) (timeout : Nat) :
    Except String (List ToolResult) :=
  if calls.all (callDone timeout) then
    Except.ok ((sortByTime calls).map entryOf)
  else
    Except.error "TimeoutError"

/-- The complete list of module-level names that `smartsheet_tools.py`
defines (its module variables, lines 76-86 and 2417, and every top-level
`def`), transcribed from the source in order of definition. -/
def smartsheetToolsModuleNames : List String :=
  ["CACHE_TTL_SECONDS", "_cache", "_cache_lock",
   "_is_cache_valid", "clear_cache",
   "_get_allowed_sheet_ids", "_get_allowed_sheet_names", "_is_sheet_allowed",
   "get_smartsheet_client", "_get_sheets_list_cached", "_resolve_sheet_id",
   "list_sheets", "get_sheet", "get_row", "filter_rows", "count_rows_by_column",
   "workspace", "folder", "sight", "report", "webhook", "group", "user",
   "attachment", "discussion", "search", "navigation",
   "sheet_metadata", "sheet_info", "update_requests",
   "compare_sheets", "get_cell_history", "get_sheet_version", "get_events",
   "get_current_user", "get_contacts", "get_server_info", "list_org_sheets",
   "get_image_urls", "SMARTSHEET_TOOLS"]

/-- The names `main.py` imports from the module `smartsheet_tools`
(main.py lines 57-63): `SMARTSHEET_TOOLS`, `get_cache_stats`, and
`clear_cache` (aliased to `clear_smartsheet_cache`).  The import is
unconditional and runs at CLI startup. -/
def mainImportsFromSmartsheetTools : List String :=
  ["SMARTSHEET_TOOLS", "get_cache_stats", "clear_cache"]

/-!
The two-tier cache.  `workflows.py` line 22 imports the module
`smartsheet_tools_optimized`, and `main.py` line 59 imports a
`get_cache_stats` whose output it formats as L1/L2 statistics
(lines 534-535); the module implementing that two-tier cache is not part
of the source tree handed over with the specification, so the stores
below are modelled from the specification text (§4.1-§4.4, §8) rather
than translated from Python source.
-/

/-- Modelled from the spec: a `CacheEntry` of the two-tier cache of the
missing `smartsheet_tools_optimized.py` module — "pairs a cached payload
... with a creation timestamp" (spec §3). -/
structure CacheEntry (α : Type) where
  value : α
  timestamp : Nat
deriving DecidableEq

/-- Removal of a key from an association list (used by the stores'
lazy-expiry deletions). -/
def eraseKey {α β : Type} [DecidableEq α] (m : List (α × β)) (k : α) : List (α × β) :=
  match m with
  | [] => []
  | (k', v') :: rest => if k' = k then eraseKey rest k else (k', v') :: eraseKey rest k

/-- Modelled from the spec: the bounded in-memory `L1Store` of the missing
`smartsheet_tools_optimized.py` module — "a mapping from CacheKey to
CacheEntry, bounded by `max_entries`" (spec §3, §4.2). -/
structure L1Store (α : Type) where
  entries : List (String × CacheEntry α)
  maxEntries : Nat
  ttl : Nat
deriving DecidableEq

/-- The configured L1 capacity default, "L1 max entries (default 100)"
(spec §6). -/
def defaultL1MaxEntries : Nat := 100

/-- Modelled from the spec: `L1Store.get` — "returns the entry if present;
as a side effect, if present but expired by L1 TTL, removes it and
returns not found (lazy expiry)" (spec §4.2). -/
def L1Store.get {α : Type} (st : L1Store α) (now : Nat) (k : String) :
    Option (CacheEntry α) × L1Store α :=
  match alookup st.entries k with
  | none => (none, st)
  | some e =>
    if now - e.timestamp < st.ttl then (some e, st)
    else (none, { st with entries := eraseKey st.entries k })

/-- The entry with the minimum stored timestamp (first such entry on
ties), `none` on an empty store. -/
def oldestEntry {α : Type} : List (String × CacheEntry α) → Option (String × CacheEntry α)
  | [] => none
  | (k, e) :: rest =>
    match oldestEntry rest with
    | none => some (k, e)
    | some (k', e') => if e.timestamp ≤ e'.timestamp then some (k, e) else some (k', e')

/-- Modelled from the spec: `L1Store.put` — "inserts/overwrites with
current timestamp.  If inserting would exceed `max_entries` and the key is
new, evict one entry with the minimum stored timestamp first (oldest-write
eviction), then insert" (spec §4.2). -/
def L1Store.put {α : Type} (st : L1Store α) (now : Nat) (k : String) (v : α) : L1Store α :=
  if (alookup st.entries k).isSome then
    { st with entries := upsert st.entries k ⟨v, now⟩ }
  else if st.entries.length < st.maxEntries then
    { st with entries := st.entries ++ [(k, ⟨v, now⟩)] }
  else
    match oldestEntry st.entries with
    | none => { st with entries := [(k, ⟨v, now⟩)] }
    | some (ko, _) => { st with entries := eraseKey st.entries ko ++ [(k, ⟨v, now⟩)] }

/-- Modelled from the spec: the durable `L2Store` of the missing
`smartsheet_tools_optimized.py` module — "one file per CacheKey", "read
returns the decoded value only if not expired by L2 TTL, else the stale
file is deleted as a side effect of the read" (spec §3, §4.3).  The
best-effort fault paths (undecodable record, failed write) are absorbed
per spec §4.3 and are not observable in this model, which tracks the
decodable records only. -/
structure L2Store (α : Type) where
  records : List (String × CacheEntry α)
  ttl : Nat
deriving DecidableEq

/-- Modelled from the spec: `L2Store.get` — absent gives not-found;
expired deletes the record and gives not-found; otherwise the entry
(spec §4.3). -/
def L2Store.get {α : Type} (st : L2Store α) (now : Nat) (k : String) :
    Option (CacheEntry α) × L2Store α :=
  match alookup st.records k with
  | none => (none, st)
  | some e =>
    if now - e.timestamp < st.ttl then (some e, st)
    else (none, { st with records := eraseKey st.records k })

/-- Modelled from the spec: `L2Store.put` — "encode `{value, timestamp=now}`
and write durably under `key`'s identity" (spec §4.3). -/
def L2Store.put {α : Type} (st : L2Store α) (now : Nat) (k : String) (v : α) : L2Store α :=
  { st with records := upsert st.records k ⟨v, now⟩ }

/-- Insertion sort of keyword arguments by name ("keyword args are sorted
by name before serialization", spec §4.1). -/
def insertKwarg (p : String × String) : List (String × String) → List (String × String)
  | [] => [p]
  | q :: qs => if p.1 ≤ q.1 then p :: q :: qs else q :: insertKwarg p qs

/-- Keyword arguments sorted by name. -/
def sortKwargs : List (String × String) → List (String × String)
  | [] => []
  | p :: ps => insertKwarg p (sortKwargs ps)

/-- Modelled from the spec: the `KeyDeriver` of the missing
`smartsheet_tools_optimized.py` module — a deterministic key from the
operation name, the positional-argument representations in order, and the
keyword arguments sorted by name (spec §4.1; the digest step is dropped,
keeping the canonical pre-digest string as the key). -/
def derive (op : String) (args : List String) (kwargs : List (String × String)) : String :=
  op ++ "(" ++ String.intercalate "," args ++ ";"
    ++ String.intercalate "," ((sortKwargs kwargs).map fun p => p.1 ++ "=" ++ p.2) ++ ")"

/-- Modelled from the spec: the `MultiLevelCache` of the missing
`smartsheet_tools_optimized.py` module, orchestrating `L1Store` and
`L2Store` (spec §4.4).  `l2Gets` counts the queries made to the L2 store,
the instrumentation spec §8 prescribes for observing "without consulting
L2". -/
structure MultiLevelCache (α : Type) where
  l1 : L1Store α
  l2 : L2Store α
  l2Gets : Nat
deriving DecidableEq

/-- Modelled from the spec: `MultiLevelCache.lookup` — derive the key,
query L1, on an L1 miss query L2, promote an L2 hit into L1, else report
a miss (spec §4.4 steps 1-4). -/
def MultiLevelCache.lookup {α : Type} (c : MultiLevelCache α) (now : Nat)
    (op : String) (args : List String) (kwargs : List (String × String)) :
    (Bool × Option α) × MultiLevelCache α :=
  match c.l1.get now (derive op args kwargs) with
  | (some e, l1') => ((true, some e.value), { c with l1 := l1' })
  | (none, l1') =>
    match c.l2.get now (derive op args kwargs) with
    | (some e, l2') =>
      ((true, some e.value),
        { l1 := l1'.put now (derive op args kwargs) e.value, l2 := l2',
          l2Gets := c.l2Gets + 1 })
    | (none, l2') =>
      ((false, none), { l1 := l1', l2 := l2', l2Gets := c.l2Gets + 1 })

/-- Modelled from the spec: `MultiLevelCache.store` — derive the key and
write through to both tiers (spec §4.4). -/
def MultiLevelCache.store {α : Type} (c : MultiLevelCache α) (now : Nat)
    (op : String) (args : List String) (kwargs : List (String × String)) (v : α) :
    MultiLevelCache α :=
  { c with l1 := c.l1.put now (derive op args kwargs) v,
           l2 := c.l2.put now (derive op args kwargs) v }

/-- The module state at import time: empty cache dict, both `lru_cache`
memo cells unpopulated. -/
def initialModuleState : ModuleState :=
  { cache := initialCacheState, allowedIdsMemo := none, allowedNamesMemo := none }

/-- A sequence of `_get_sheets_list_cached` calls at the given instants,
threading the module cache state (the returned lists are discarded; only
the state evolution matters for the invocation count). -/
def runCalls (ttl : Nat) (upstream : Except String (List Sheet)) :
    List Nat → CacheState → CacheState
  | [], s => s
  | t :: ts, s => runCalls ttl upstream ts (get_sheets_list_cached ttl upstream t s).2

/-! Association-list lemmas shared by the proofs. -/

theorem alookup_upsert_self {α β : Type} [DecidableEq α] (m : List (α × β)) (k : α) (v : β) :
    alookup (upsert m k v) k = some v := by
  induction m with
  | nil => simp [upsert, alookup]
  | cons p rest ih =>
    obtain ⟨k', v'⟩ := p
    by_cases h : k' = k
    · simp [upsert, alookup, h]
    · simp [upsert, alookup, h, ih]

theorem alookup_upsert_ne {α β : Type} [DecidableEq α] (m : List (α × β)) (k k' : α) (v : β)
    (h : k ≠ k') : alookup (upsert m k' v) k = alookup m k := by
  have h' : ¬ k' = k := fun hh => h hh.symm
  induction m with
  | nil => simp [upsert, alookup, h']
  | cons p rest ih =>
    obtain ⟨k'', v''⟩ := p
    by_cases h2 : k'' = k'
    · subst h2
      simp [upsert, alookup, h']
    · by_cases h3 : k'' = k
      · subst h3
        simp [upsert, alookup, h, h2]
      · simp [upsert, alookup, h2, h3, ih]

theorem alookup_append_of_none {α β : Type} [DecidableEq α] (m l : List (α × β)) (k : α)
    (h : alookup m k = none) : alookup (m ++ l) k = alookup l k := by
  induction m with
  | nil => simp
  | cons p rest ih =>
    obtain ⟨k', v'⟩ := p
    by_cases h2 : k' = k
    · simp [alookup, h2] at h
    · simp only [alookup, h2, if_false] at h
      simp only [List.cons_append, alookup, h2, if_false]
      exact ih h

theorem alookup_eraseKey {α β : Type} [DecidableEq α] (m : List (α × β)) (ko k : α) :
    alookup (eraseKey m ko) k = if k = ko then none else alookup m k := by
  induction m with
  | nil => simp [eraseKey, alookup]
  | cons p rest ih =>
    obtain ⟨k', v'⟩ := p
    simp only [eraseKey]
    by_cases h : k' = ko
    · rw [if_pos h, ih]
      by_cases h2 : k = ko
      · simp [h2]
      · have h3 : ¬ k' = k := by
          rw [h]
          exact fun hh => h2 hh.symm
        simp [alookup, h2, h3]
    · rw [if_neg h]
      simp only [alookup]
      by_cases h2 : k' = k
      · have h3 : ¬ k = ko := fun hh => h (h2.trans hh)
        rw [if_pos h2, if_neg h3, if_pos h2]
      · rw [if_neg h2, ih]
        by_cases h3 : k = ko
        · simp [h3]
        · simp [h3, alookup, h2]

theorem eraseKey_of_none {α β : Type} [DecidableEq α] (m : List (α × β)) (ko : α)
    (h : alookup m ko = none) : eraseKey m ko = m := by
  induction m with
  | nil => rfl
  | cons p rest ih =>
    obtain ⟨k', v'⟩ := p
    by_cases h2 : k' = ko
    · simp [alookup, h2] at h
    · simp only [alookup, h2, if_false] at h
      simp [eraseKey, h2, ih h]

theorem alookup_none_of_not_mem_keys {α β : Type} [DecidableEq α]
    (m : List (α × β)) (k : α) (h : k ∉ m.map Prod.fst) : alookup m k = none := by
  induction m with
  | nil => rfl
  | cons p rest ih =>
    obtain ⟨k', v'⟩ := p
    simp only [List.map_cons, List.mem_cons] at h
    push_neg at h
    have h1 : ¬ k' = k := fun hh => h.1 (hh ▸ rfl)
    simp only [alookup, h1, if_false]
    exact ih h.2

theorem length_upsert_of_isSome {α β : Type} [DecidableEq α] (m : List (α × β)) (k : α) (v : β)
    (h : (alookup m k).isSome) : (upsert m k v).length = m.length := by
  induction m with
  | nil => simp [alookup] at h
  | cons p rest ih =>
    obtain ⟨k', v'⟩ := p
    by_cases h2 : k' = k
    · simp [upsert, h2]
    · simp only [alookup, h2, if_false] at h
      simp [upsert, h2, ih h]

theorem length_eraseKey_of_mem {α β : Type} [DecidableEq α]
    (m : List (α × β)) (ko : α) (eo : β)
    (hnodup : (m.map Prod.fst).Nodup) (hmem : (ko, eo) ∈ m) :
    m.length = (eraseKey m ko).length + 1 := by
  induction m with
  | nil => simp at hmem
  | cons p rest ih =>
    obtain ⟨k', v'⟩ := p
    simp only [List.map_cons, List.nodup_cons] at hnodup
    rcases List.mem_cons.mp hmem with h | h
    · have hk : ko = k' := congrArg Prod.fst h
      subst hk
      have hnotmem : ko ∉ rest.map Prod.fst := hnodup.1
      have hrest : eraseKey rest ko = rest :=
        eraseKey_of_none rest ko (alookup_none_of_not_mem_keys rest ko hnotmem)
      simp [eraseKey, hrest]
    · have hk : ¬ k' = ko := by
        intro hh
        subst hh
        exact hnodup.1 (List.mem_map_of_mem Prod.fst h)
      have := ih hnodup.2 h
      simp only [eraseKey, hk, if_false, List.length_cons]
      omega

theorem mem_eraseKey_of_ne {α β : Type} [DecidableEq α] (m : List (α × β)) (ko : α)
    (p : α × β) (hmem : p ∈ m) (hne : p.1 ≠ ko) : p ∈ eraseKey m ko := by
  induction m with
  | nil => simp at hmem
  | cons q rest ih =>
    obtain ⟨k', v'⟩ := q
    rcases List.mem_cons.mp hmem with h | h
    · subst h
      simp only [eraseKey]
      rw [if_neg hne]
      exact List.mem_cons_self ..
    · by_cases h2 : k' = ko
      · simp only [eraseKey, h2, if_pos rfl]
        exact ih h
      · simp only [eraseKey, h2, if_false]
        exact List.mem_cons_of_mem _ (ih h)

theorem oldestEntry_spec {α : Type} (m : List (String × CacheEntry α)) (h : m ≠ []) :
    ∃ ko eo, oldestEntry m = some (ko, eo) ∧ (ko, eo) ∈ m ∧
      ∀ p ∈ m, eo.timestamp ≤ p.2.timestamp := by
  induction m with
  | nil => exact absurd rfl h
  | cons q rest ih =>
    obtain ⟨k, e⟩ := q
    by_cases hrest : rest = []
    · subst hrest
      refine ⟨k, e, by simp [oldestEntry], by simp, ?_⟩
      intro p hp
      simp at hp
      simp [hp]
    · obtain ⟨ko, eo, hold, hmem, hmin⟩ := ih hrest
      by_cases hle : e.timestamp ≤ eo.timestamp
      · refine ⟨k, e, ?_, by simp, ?_⟩
        · simp [oldestEntry, hold, hle]
        · intro p hp
          rcases List.mem_cons.mp hp with h2 | h2
          · simp [h2]
          · exact le_trans hle (hmin p h2)
      · refine ⟨ko, eo, ?_, List.mem_cons_of_mem _ hmem, ?_⟩
        · simp [oldestEntry, hold, hle]
        · intro p hp
          rcases List.mem_cons.mp hp with h2 | h2
          · subst h2
            show eo.timestamp ≤ e.timestamp
            omega
          · exact hmin p h2

/-! Store-level lemmas. -/

theorem L1Store.alookup_put_self {α : Type} (st : L1Store α) (now : Nat) (k : String) (v : α) :
    alookup (st.put now k v).entries k = some ⟨v, now⟩ := by
  unfold L1Store.put
  by_cases h : (alookup st.entries k).isSome
  · simp only [h, if_pos rfl, if_true]
    exact alookup_upsert_self ..
  · have hnone : alookup st.entries k = none := by
      cases hh : alookup st.entries k with
      | none => rfl
      | some w => rw [hh] at h; simp at h
    simp only [h, if_false, Bool.false_eq_true]
    by_cases h2 : st.entries.length < st.maxEntries
    · simp only [if_pos h2]
      rw [alookup_append_of_none _ _ _ hnone]
      simp [alookup]
    · simp only [if_neg h2]
      cases h3 : oldestEntry st.entries with
      | none => simp [alookup]
      | some p =>
        obtain ⟨ko, eo⟩ := p
        have herase : alookup (eraseKey st.entries ko) k = none := by
          rw [alookup_eraseKey]
          by_cases h4 : k = ko
          · simp [h4]
          · simp [h4, hnone]
        simp only
        rw [alookup_append_of_none _ _ _ herase]
        simp [alookup]

theorem L1Store.ttl_put {α : Type} (st : L1Store α) (now : Nat) (k : String) (v : α) :
    (st.put now k v).ttl = st.ttl := by
  unfold L1Store.put
  by_cases h : (alookup st.entries k).isSome
  · simp [h]
  · simp only [h, if_false, Bool.false_eq_true]
    by_cases h2 : st.entries.length < st.maxEntries
    · simp [h2]
    · simp only [if_neg h2]
      cases h3 : oldestEntry st.entries with
      | none => rfl
      | some p => obtain ⟨ko, eo⟩ := p; rfl

theorem L1Store.maxEntries_put {α : Type} (st : L1Store α) (now : Nat) (k : String) (v : α) :
    (st.put now k v).maxEntries = st.maxEntries := by
  unfold L1Store.put
  by_cases h : (alookup st.entries k).isSome
  · simp [h]
  · simp only [h, if_false, Bool.false_eq_true]
    by_cases h2 : st.entries.length < st.maxEntries
    · simp [h2]
    · simp only [if_neg h2]
      cases h3 : oldestEntry st.entries with
      | none => rfl
      | some p => obtain ⟨ko, eo⟩ := p; rfl

theorem l1_get_valid_hit {α : Type} (st : L1Store α) (now : Nat) (k : String)
    (e : CacheEntry α) (hmem : alookup st.entries k = some e)
    (hvalid : now - e.timestamp < st.ttl) : st.get now k = (some e, st) := by
  unfold L1Store.get
  rw [hmem]
  simp [hvalid]

theorem l2_get_valid_hit {α : Type} (st : L2Store α) (now : Nat) (k : String)
    (e : CacheEntry α) (hmem : alookup st.records k = some e)
    (hvalid : now - e.timestamp < st.ttl) : st.get now k = (some e, st) := by
  unfold L2Store.get
  rw [hmem]
  simp [hvalid]

theorem L1Store.ttl_get {α : Type} (st : L1Store α) (now : Nat) (k : String) :
    ((st.get now k).2).ttl = st.ttl := by
  unfold L1Store.get
  cases h : alookup st.entries k with
  | none => rfl
  | some e =>
    by_cases h2 : now - e.timestamp < st.ttl
    · simp [h2]
    · simp [h2]

theorem alookup_isSome_of_mem {α β : Type} [DecidableEq α] (m : List (α × β))
    (p : α × β) (h : p ∈ m) : (alookup m p.1).isSome := by
  induction m with
  | nil => simp at h
  | cons q rest ih =>
    obtain ⟨k', v'⟩ := q
    rcases List.mem_cons.mp h with h2 | h2
    · subst h2
      simp [alookup]
    · by_cases h3 : k' = p.1
      · simp [alookup, h3]
      · simp [alookup, h3, ih h2]

/-! Module-state lemmas for the embedded `smartsheet_tools.py`. -/

theorem get_sheets_list_cached_valid (ttl : Nat) (upstream : Except String (List Sheet))
    (now : Nat) (s : CacheState) (l : List Sheet)
    (hl : s.sheetsList = some l) (hne : l ≠ [])
    (hvalid : now - s.sheetsListFetchedAt < ttl) :
    get_sheets_list_cached ttl upstream now s = (Except.ok l, s) := by
  unfold get_sheets_list_cached
  rw [hl]
  simp [is_cache_valid, hne, hvalid]

theorem runCalls_cached (ttl : Nat) (upstream : Except String (List Sheet))
    (l : List Sheet) (s : CacheState) (ts : List Nat)
    (hl : s.sheetsList = some l) (hne : l ≠ [])
    (hts : ∀ t ∈ ts, t - s.sheetsListFetchedAt < ttl) :
    runCalls ttl upstream ts s = s := by
  induction ts with
  | nil => rfl
  | cons t rest ih =>
    simp only [runCalls]
    rw [get_sheets_list_cached_valid ttl upstream t s l hl hne (hts t (List.mem_cons_self ..))]
    exact ih fun t' ht' => hts t' (List.mem_cons_of_mem _ ht')

theorem get_smartsheet_client_valid (ttl : Nat) (env : Env) (now : Nat) (s : CacheState)
    (c : Client) (hc : s.client = some c) (hvalid : now - s.clientCreatedAt < ttl) :
    get_smartsheet_client ttl env now s = (Except.ok c, s) := by
  unfold get_smartsheet_client
  rw [hc]
  simp [is_cache_valid, hvalid]

theorem resolveViaList_state (ttl : Nat) (upstream : Except String (List Sheet))
    (now : Nat) (s : CacheState) (k : String) :
    (resolve_sheet_id.resolveViaList ttl upstream now s k).2
      = (get_sheets_list_cached ttl upstream now s).2 := by
  unfold resolve_sheet_id.resolveViaList
  rcases h : get_sheets_list_cached ttl upstream now s with ⟨res, s'⟩
  cases res with
  | error e => rfl
  | ok l => rfl

theorem get_allowed_sheet_ids_cache (env : Env) (ms : ModuleState) :
    ((get_allowed_sheet_ids env ms).2).cache = ms.cache := by
  unfold get_allowed_sheet_ids
  cases h : ms.allowedIdsMemo <;> rfl

theorem get_allowed_sheet_names_cache (env : Env) (ms : ModuleState) :
    ((get_allowed_sheet_names env ms).2).cache = ms.cache := by
  unfold get_allowed_sheet_names
  cases h : ms.allowedNamesMemo <;> rfl

theorem alookup_updateNames_isSome (m : List (String × (Nat × String × Nat)))
    (l : List Sheet) (now : Nat) (k : String)
    (h : (alookup m k).isSome) : (alookup (updateNames m l now) k).isSome := by
  induction l generalizing m with
  | nil => simpa [updateNames] using h
  | cons sh rest ih =>
    simp only [updateNames]
    apply ih
    by_cases h2 : k = pyLower sh.name
    · rw [h2, alookup_upsert_self]
      rfl
    · rw [alookup_upsert_ne _ _ _ _ h2]
      exact h

theorem get_sheets_list_cached_nameToId_isSome (ttl : Nat)
    (upstream : Except String (List Sheet)) (now : Nat) (s : CacheState) (k : String)
    (h : (alookup s.nameToId k).isSome) :
    (alookup (((get_sheets_list_cached ttl upstream now s).2).nameToId) k).isSome := by
  have hfresh : (alookup (((get_sheets_list_cached.fetchFresh upstream now s).2).nameToId) k).isSome := by
    unfold get_sheets_list_cached.fetchFresh
    cases upstream with
    | error e => exact h
    | ok l => exact alookup_updateNames_isSome s.nameToId l now k h
  unfold get_sheets_list_cached
  cases hl : s.sheetsList with
  | none => exact hfresh
  | some l =>
    dsimp only
    by_cases hc : l ≠ [] ∧ is_cache_valid ttl now s.sheetsListFetchedAt = true
    · rw [if_pos hc]
      exact h
    · rw [if_neg hc]
      exact hfresh

/-! Fan-out lemmas for the embedded `workflows.py`. -/

theorem mem_insertByTime (c d : SubmittedCall) (l : List SubmittedCall) :
    d ∈ insertByTime c l ↔ d = c ∨ d ∈ l := by
  induction l with
  | nil => simp [insertByTime]
  | cons q rest ih =>
    simp only [insertByTime]
    by_cases h : completionTime c ≤ completionTime q
    · simp [h, List.mem_cons]
    · simp only [h, if_false, List.mem_cons, ih]
      tauto

theorem length_insertByTime (c : SubmittedCall) (l : List SubmittedCall) :
    (insertByTime c l).length = l.length + 1 := by
  induction l with
  | nil => rfl
  | cons q rest ih =>
    simp only [insertByTime]
    by_cases h : completionTime c ≤ completionTime q
    · simp [h]
    · simp [h, ih]

theorem mem_sortByTime (c : SubmittedCall) (l : List SubmittedCall) :
    c ∈ sortByTime l ↔ c ∈ l := by
  induction l with
  | nil => simp [sortByTime]
  | cons q rest ih =>
    simp only [sortByTime, mem_insertByTime, List.mem_cons, ih]

theorem length_sortByTime (l : List SubmittedCall) :
    (sortByTime l).length = l.length := by
  induction l with
  | nil => rfl
  | cons q rest ih =>
    simp only [sortByTime, length_insertByTime, ih, List.length_cons]

/-! Claim theorems. -/

/-- C1: the claim says the cache subsystem exposes a statistics operation
and that the function the CLI imports as `get_cache_stats` from
`smartsheet_tools` exists.  It does not: `main.py` unconditionally imports
`get_cache_stats` from `smartsheet_tools` (needed by its `/cache`
handler), but `smartsheet_tools.py` defines no such name, so the CLI
raises `ImportError` at startup — the code contradicts its own `/cache`
command.  This theorem evaluates the name-resolution fact: the imported
name is absent from the module's definitions while the claim's other
imported names are present. -/
theorem c1_get_cache_stats_import_unsatisfiable :
    "get_cache_stats" ∈ mainImportsFromSmartsheetTools ∧
    "get_cache_stats" ∉ smartsheetToolsModuleNames ∧
    "SMARTSHEET_TOOLS" ∈ smartsheetToolsModuleNames ∧
    "clear_cache" ∈ smartsheetToolsModuleNames := by
  refine ⟨by decide, by decide, by decide, by decide⟩

/-- C9: with neither `ALLOWED_SHEET_IDS` nor `ALLOWED_SHEET_NAMES`
configured (both environment reads give `""`, which parses to the empty
set), `_is_sheet_allowed` returns `True` for every sheet id and sheet
name — scoping defaults to allow-all. -/
theorem c9_allow_all_when_unconfigured :
    parseAllowedIds "" = [] ∧ parseAllowedNames "" = [] ∧
    ∀ (sheetId : Option Nat) (sheetName : Option String),
      is_sheet_allowed (parseAllowedIds "") (parseAllowedNames "") sheetId sheetName = true := by
  have h1 : parseAllowedIds "" = [] := by decide
  have h2 : parseAllowedNames "" = [] := by decide
  refine ⟨h1, h2, ?_⟩
  intro sheetId sheetName
  rw [h1, h2]
  rfl

/-- C6 counterexample: the claim says a batch timeout with pending calls
surfaces as per-call error results and never as an exception out of
`run_parallel_tools`.  At this concrete input — two submitted calls, one
completing at second 1, one still pending at the 30-second deadline — the
embedded `run_parallel_tools` raises (`as_completed(futures, timeout=30)`
raises `concurrent.futures.TimeoutError` at the `for` statement, outside
the per-future `try/except`), returning no per-call results at all. -/
theorem c6_counterexample :
    run_parallel_tools
      [{ name := "list_sheets", completion := some (1, Except.ok "Found 3 sheets") },
       { name := "get_sheet", completion := none }] 30
      = Except.error "TimeoutError" := rfl

/-- C6 (amended): when the wall-clock timeout elapses with at least one
submitted call still pending, `run_parallel_tools` raises the timeout out
of the batch call, discarding every per-call result collected so far (and
so no entry — and in particular no cache write — happens on behalf of a
pending call inside the batch); per-call error entries exist only when
every call completes before the deadline, in which case each raising
call contributes its error entry. -/
theorem c6_amended_timeout_raises (calls : List SubmittedCall) (timeout : Nat) :
    ((∃ c ∈ calls, callDone timeout c = false) →
      run_parallel_tools calls timeout = Except.error "TimeoutError") ∧
    ((∀ c ∈ calls, callDone timeout c = true) →
      ∃ l, run_parallel_tools calls timeout = Except.ok l ∧
        l.length = calls.length ∧ ∀ c ∈ calls, entryOf c ∈ l) := by
  constructor
  · rintro ⟨c, hc, hdone⟩
    unfold run_parallel_tools
    rw [if_neg]
    intro hall
    rw [List.all_eq_true] at hall
    have hcontra := hall c hc
    rw [hdone] at hcontra
    exact Bool.false_ne_true hcontra
  · intro hall
    unfold run_parallel_tools
    rw [if_pos (List.all_eq_true.mpr hall)]
    refine ⟨(sortByTime calls).map entryOf, rfl, ?_, ?_⟩
    · rw [List.length_map, length_sortByTime]
    · intro c hc
      exact List.mem_map_of_mem _ ((mem_sortByTime c calls).mpr hc)

/-- C6 witness: the amended theorem applied at a concrete batch — the
timeout clause at a batch with a pending call, and the all-completed
clause at a batch whose failing call yields an error entry. -/
theorem c6_witness :
    run_parallel_tools
      [{ name := "workspace", completion := some (2, Except.ok "ws") },
       { name := "report", completion := none }] 30
      = Except.error "TimeoutError" ∧
    ∃ l, run_parallel_tools
      [{ name := "workspace", completion := some (2, Except.error "boom") }] 30
      = Except.ok l ∧ l.length = 1 ∧
      ∀ c ∈ [({ name := "workspace", completion := some (2, Except.error "boom") } : SubmittedCall)],
        entryOf c ∈ l := by
  constructor
  · exact (c6_amended_timeout_raises _ 30).1
      ⟨{ name := "report", completion := none }, by simp, rfl⟩
  · exact (c6_amended_timeout_raises _ 30).2 (by intro c hc; simp at hc; subst hc; rfl)

/-- C4 counterexample: the claim says that while a cached entry is valid a
repeated call never invokes the upstream fetch.  At this concrete,
reachable input the sheets-list cache holds an entry written one second
earlier (TTL 300), yet the repeated call invokes the upstream fetch again
(invocation count 1 → 2): the truthiness guard
`if _cache["sheets_list"] and _is_cache_valid(...)` never serves a cached
empty list. -/
theorem c4_counterexample :
    ((get_sheets_list_cached 300 (Except.ok []) 10 initialCacheState).2).sheetsList
        = some [] ∧
    ((get_sheets_list_cached 300 (Except.ok []) 10 initialCacheState).2).sheetsListFetchedAt
        = 10 ∧
    ((get_sheets_list_cached 300 (Except.ok []) 10 initialCacheState).2).sheetsFetchCount
        = 1 ∧
    is_cache_valid 300 11 10 = true ∧
    ((get_sheets_list_cached 300 (Except.ok []) 11
        ((get_sheets_list_cached 300 (Except.ok []) 10 initialCacheState).2)).2).sheetsFetchCount
        = 2 :=
  ⟨rfl, rfl, rfl, rfl, rfl⟩

/-- C4 (amended): provided the cached value is truthy — a non-empty
sheets list, a non-`None` client — a call inside the validity window is
served from the cache without invoking the upstream: a single valid-cache
call returns the cached list and leaves the state (including the upstream
invocation count) unchanged, any sequence of calls inside the window
leaves the state unchanged (so the upstream is invoked at most once per
window, by the fetch that created the entry), and the cached client is
likewise reused without a new creation.  A cached empty sheets list is
the exception: it is refetched on every call (see the counterexample). -/
theorem c4_amended_at_most_once_per_window (ttl : Nat) (env : Env)
    (upstream : Except String (List Sheet)) (s : CacheState) (l : List Sheet)
    (c : Client) (ts : List Nat) (now : Nat)
    (hl : s.sheetsList = some l) (hne : l ≠ [])
    (hvalid : now - s.sheetsListFetchedAt < ttl)
    (hts : ∀ t ∈ ts, t - s.sheetsListFetchedAt < ttl)
    (hc : s.client = some c) (hcvalid : now - s.clientCreatedAt < ttl) :
    get_sheets_list_cached ttl upstream now s = (Except.ok l, s) ∧
    runCalls ttl upstream ts s = s ∧
    (runCalls ttl upstream ts s).sheetsFetchCount = s.sheetsFetchCount ∧
    get_smartsheet_client ttl env now s = (Except.ok c, s) := by
  have h1 := get_sheets_list_cached_valid ttl upstream now s l hl hne hvalid
  have h2 := runCalls_cached ttl upstream l s ts hl hne hts
  exact ⟨h1, h2, by rw [h2], get_smartsheet_client_valid ttl env now s c hc hcvalid⟩

/-- C4 witness: the amended theorem applied at a concrete valid cache
state — three repeated calls inside the window leave the invocation count
at its pre-existing value. -/
theorem c4_witness :
    get_sheets_list_cached 300 (Except.error "down") 40
        { client := some { token := "tok" }, clientCreatedAt := 30,
          sheetsList := some [{ id := 7, name := "Budget", accessLevel := "OWNER",
                                createdAt := none, modifiedAt := none }],
          sheetsListFetchedAt := 20, nameToId := [("budget", (7, "Budget", 20))],
          clientCreateCount := 1, sheetsFetchCount := 1 }
      = (Except.ok [{ id := 7, name := "Budget", accessLevel := "OWNER",
                      createdAt := none, modifiedAt := none }],
          { client := some { token := "tok" }, clientCreatedAt := 30,
            sheetsList := some [{ id := 7, name := "Budget", accessLevel := "OWNER",
                                  createdAt := none, modifiedAt := none }],
            sheetsListFetchedAt := 20, nameToId := [("budget", (7, "Budget", 20))],
            clientCreateCount := 1, sheetsFetchCount := 1 }) ∧
    (runCalls 300 (Except.error "down") [40, 50, 60]
        { client := some { token := "tok" }, clientCreatedAt := 30,
          sheetsList := some [{ id := 7, name := "Budget", accessLevel := "OWNER",
                                createdAt := none, modifiedAt := none }],
          sheetsListFetchedAt := 20, nameToId := [("budget", (7, "Budget", 20))],
          clientCreateCount := 1, sheetsFetchCount := 1 }).sheetsFetchCount = 1 := by
  have h := c4_amended_at_most_once_per_window 300 { token := some "tok", allowedIdsRaw := "", allowedNamesRaw := "" }
    (Except.error "down")
    { client := some { token := "tok" }, clientCreatedAt := 30,
      sheetsList := some [{ id := 7, name := "Budget", accessLevel := "OWNER",
                            createdAt := none, modifiedAt := none }],
      sheetsListFetchedAt := 20, nameToId := [("budget", (7, "Budget", 20))],
      clientCreateCount := 1, sheetsFetchCount := 1 }
    [{ id := 7, name := "Budget", accessLevel := "OWNER", createdAt := none, modifiedAt := none }]
    { token := "tok" } [40, 50, 60] 40 rfl (by decide) (by decide)
    (by intro t ht; fin_cases ht <;> decide) rfl (by decide)
  exact ⟨h.1, h.2.2.1⟩

/-- C5 counterexample: the claim says a read of an expired in-memory
entry reports not-found and removes the entry from the store.  At this
concrete input the name-to-id entry for `"x"` is expired (written at 0,
read at 300, TTL 300), the read resolves the name through the still-valid
sheets list instead — reporting found, not not-found — and afterwards the
expired entry is still in the store, unremoved (the upstream raises, so
the value visibly did not come from a refetch either). -/
theorem c5_counterexample :
    (resolve_sheet_id 300 (Except.error "network down") 300
        { client := none, clientCreatedAt := 0,
          sheetsList := some [{ id := 42, name := "X", accessLevel := "OWNER",
                                createdAt := none, modifiedAt := none }],
          sheetsListFetchedAt := 250,
          nameToId := [("x", (42, "X", 0))],
          clientCreateCount := 0, sheetsFetchCount := 0 } "X").1
      = Except.ok (some 42, some "X") ∧
    is_cache_valid 300 300 0 = false ∧
    ((resolve_sheet_id 300 (Except.error "network down") 300
        { client := none, clientCreatedAt := 0,
          sheetsList := some [{ id := 42, name := "X", accessLevel := "OWNER",
                                createdAt := none, modifiedAt := none }],
          sheetsListFetchedAt := 250,
          nameToId := [("x", (42, "X", 0))],
          clientCreateCount := 0, sheetsFetchCount := 0 } "X").2).nameToId
      = [("x", (42, "X", 0))] :=
  ⟨rfl, rfl, rfl⟩

/-- C5 (amended): a read that meets an expired in-memory name-to-id entry
bypasses it — the resolution proceeds through the sheets-list path
instead of being served from the entry — but does **not** remove it: the
key is still present in the store after the read (either as the old
entry, or refreshed when a fetch ran and the sheet is still listed);
expiry is only ever checked lazily on read and nothing sweeps the map. -/
theorem c5_amended_expired_read_bypasses_without_removal (ttl : Nat)
    (upstream : Except String (List Sheet)) (now : Nat) (s : CacheState)
    (name : String) (id : Nat) (nm : String) (ts : Nat)
    (hnotnum : isDigitString name = false)
    (hmem : alookup s.nameToId (pyLower name) = some (id, nm, ts))
    (hexp : is_cache_valid ttl now ts = false) :
    resolve_sheet_id ttl upstream now s name
      = resolve_sheet_id.resolveViaList ttl upstream now s (pyLower name) ∧
    (alookup (((resolve_sheet_id ttl upstream now s name).2).nameToId) (pyLower name)).isSome := by
  have hmain : resolve_sheet_id ttl upstream now s name
      = resolve_sheet_id.resolveViaList ttl upstream now s (pyLower name) := by
    unfold resolve_sheet_id
    rw [hnotnum]
    simp only [Bool.false_eq_true, if_false]
    rw [hmem]
    simp only [hexp, Bool.false_eq_true, if_false]
  refine ⟨hmain, ?_⟩
  rw [hmain, resolveViaList_state]
  exact get_sheets_list_cached_nameToId_isSome ttl upstream now s (pyLower name)
    (by rw [hmem]; rfl)

/-- C5 witness: the amended theorem applied at the counterexample's
input — the expired entry for `"x"` is bypassed yet still present. -/
theorem c5_witness :
    isDigitString "X" = false ∧
    alookup ([("x", (42, "X", 0))] : List (String × (Nat × String × Nat))) (pyLower "X")
      = some (42, "X", 0) ∧
    is_cache_valid 300 300 0 = false ∧
    (alookup (((resolve_sheet_id 300 (Except.error "network down") 300
        { client := none, clientCreatedAt := 0,
          sheetsList := some [{ id := 42, name := "X", accessLevel := "OWNER",
                                createdAt := none, modifiedAt := none }],
          sheetsListFetchedAt := 250,
          nameToId := [("x", (42, "X", 0))],
          clientCreateCount := 0, sheetsFetchCount := 0 } "X").2).nameToId)
        (pyLower "X")).isSome := by
  refine ⟨rfl, rfl, rfl, ?_⟩
  exact (c5_amended_expired_read_bypasses_without_removal 300 (Except.error "network down")
    300
    { client := none, clientCreatedAt := 0,
      sheetsList := some [{ id := 42, name := "X", accessLevel := "OWNER",
                            createdAt := none, modifiedAt := none }],
      sheetsListFetchedAt := 250,
      nameToId := [("x", (42, "X", 0))],
      clientCreateCount := 0, sheetsFetchCount := 0 }
    "X" 42 "X" 0 rfl rfl rfl).2

/-- C10: `clear_cache` (the `/refresh` flush) reassigns only the `_cache`
dict; the `lru_cache(maxsize=1)` memo cells of `_get_allowed_sheet_ids`
and `_get_allowed_sheet_names` are untouched by every flush, so once the
memo is populated, a later call — under **any** environment, in
particular one with changed `ALLOWED_SHEET_IDS`/`ALLOWED_SHEET_NAMES` —
still returns the memoized sets. -/
theorem c10_flush_preserves_scoping_memo (ms : ModuleState) (env2 : Env)
    (v : List Nat) (w : List String)
    (hv : ms.allowedIdsMemo = some v) (hw : ms.allowedNamesMemo = some w) :
    (clear_cache_module ms).allowedIdsMemo = some v ∧
    (clear_cache_module ms).allowedNamesMemo = some w ∧
    (clear_cache_module ms).cache.client = none ∧
    (clear_cache_module ms).cache.sheetsList = none ∧
    (clear_cache_module ms).cache.nameToId = [] ∧
    (get_allowed_sheet_ids env2 (clear_cache_module ms)).1 = v ∧
    (get_allowed_sheet_names env2 (clear_cache_module ms)).1 = w := by
  refine ⟨hv, hw, rfl, rfl, rfl, ?_, ?_⟩
  · unfold get_allowed_sheet_ids clear_cache_module
    rw [show ({ ms with cache := clear_cache ms.cache } : ModuleState).allowedIdsMemo
        = some v from hv]
  · unfold get_allowed_sheet_names clear_cache_module
    rw [show ({ ms with cache := clear_cache ms.cache } : ModuleState).allowedNamesMemo
        = some w from hw]

/-- C10 witness: the theorem applied at a populated memo and an
environment whose scoping variables differ from the memoized sets — the
flush keeps the memo and the post-flush read still returns it. -/
theorem c10_witness :
    ({ cache := initialCacheState, allowedIdsMemo := some [7],
       allowedNamesMemo := some ["kpi"] } : ModuleState).allowedIdsMemo = some [7] ∧
    ({ cache := initialCacheState, allowedIdsMemo := some [7],
       allowedNamesMemo := some ["kpi"] } : ModuleState).allowedNamesMemo = some ["kpi"] ∧
    (get_allowed_sheet_ids { token := none, allowedIdsRaw := "8,9", allowedNamesRaw := "other" }
        (clear_cache_module
          { cache := initialCacheState, allowedIdsMemo := some [7],
            allowedNamesMemo := some ["kpi"] })).1 = [7] ∧
    (get_allowed_sheet_names { token := none, allowedIdsRaw := "8,9", allowedNamesRaw := "other" }
        (clear_cache_module
          { cache := initialCacheState, allowedIdsMemo := some [7],
            allowedNamesMemo := some ["kpi"] })).1 = ["kpi"] := by
  have h := c10_flush_preserves_scoping_memo
    { cache := initialCacheState, allowedIdsMemo := some [7], allowedNamesMemo := some ["kpi"] }
    { token := none, allowedIdsRaw := "8,9", allowedNamesRaw := "other" }
    [7] ["kpi"] rfl rfl
  exact ⟨rfl, rfl, h.2.2.2.2.2.1, h.2.2.2.2.2.2⟩

/-- C3: after any insert the L1 store holds at most `max_entries` entries,
and inserting a new key into a full store evicts exactly one entry — one
carrying the minimum stored timestamp: that entry's key is gone, every
other entry survives unchanged, the new entry is present with the current
timestamp, and the size stays exactly `max_entries`.  (Stated over the
spec-modelled `L1Store`; `defaultL1MaxEntries = 100` is the configured
default capacity.) -/
theorem c3_l1_bounded_oldest_eviction {α : Type} (st : L1Store α) (now : Nat)
    (k : String) (v : α)
    (hnodup : (st.entries.map Prod.fst).Nodup)
    (hbound : st.entries.length ≤ st.maxEntries)
    (hpos : 0 < st.maxEntries) :
    (st.put now k v).entries.length ≤ st.maxEntries ∧
    (alookup st.entries k = none → st.entries.length = st.maxEntries →
      ∃ ko eo, oldestEntry st.entries = some (ko, eo) ∧
        (ko, eo) ∈ st.entries ∧
        (∀ p ∈ st.entries, eo.timestamp ≤ p.2.timestamp) ∧
        alookup (st.put now k v).entries ko = none ∧
        (∀ p ∈ st.entries, p.1 ≠ ko → p ∈ (st.put now k v).entries) ∧
        alookup (st.put now k v).entries k = some ⟨v, now⟩ ∧
        (st.put now k v).entries.length = st.maxEntries) := by
  constructor
  · unfold L1Store.put
    by_cases h1 : (alookup st.entries k).isSome
    · rw [if_pos h1]
      show (upsert st.entries k (⟨v, now⟩ : CacheEntry α)).length ≤ st.maxEntries
      rw [length_upsert_of_isSome st.entries k (⟨v, now⟩ : CacheEntry α) h1]
      exact hbound
    · rw [if_neg h1]
      by_cases h2 : st.entries.length < st.maxEntries
      · rw [if_pos h2]
        show (st.entries ++ [(k, (⟨v, now⟩ : CacheEntry α))]).length ≤ st.maxEntries
        simp only [List.length_append, List.length_cons, List.length_nil]
        omega
      · rw [if_neg h2]
        have hfull : st.entries.length = st.maxEntries :=
          le_antisymm hbound (not_lt.mp h2)
        have hne : st.entries ≠ [] := by
          intro hnil
          rw [hnil] at hfull
          simp at hfull
          omega
        obtain ⟨ko, eo, hold, hmem, hmin⟩ := oldestEntry_spec st.entries hne
        rw [hold]
        show (eraseKey st.entries ko ++ [(k, (⟨v, now⟩ : CacheEntry α))]).length ≤ st.maxEntries
        simp only [List.length_append, List.length_cons, List.length_nil]
        have hlen := length_eraseKey_of_mem st.entries ko eo hnodup hmem
        omega
  · intro hknew hfull
    have hne : st.entries ≠ [] := by
      intro hnil
      rw [hnil] at hfull
      simp at hfull
      omega
    obtain ⟨ko, eo, hold, hmem, hmin⟩ := oldestEntry_spec st.entries hne
    have hput : (st.put now k v).entries = eraseKey st.entries ko ++ [(k, ⟨v, now⟩)] := by
      unfold L1Store.put
      rw [hknew]
      simp only [Option.isSome_none, Bool.false_eq_true, if_false]
      rw [if_neg (by omega), hold]
    have hkko : k ≠ ko := by
      intro hh
      subst hh
      have hsome := alookup_isSome_of_mem st.entries (k, eo) hmem
      rw [hknew] at hsome
      simp at hsome
    refine ⟨ko, eo, hold, hmem, hmin, ?_, ?_, L1Store.alookup_put_self st now k v, ?_⟩
    · rw [hput, alookup_append_of_none]
      · simp [alookup, hkko]
      · rw [alookup_eraseKey]
        simp
    · intro p hp hpne
      rw [hput]
      exact List.mem_append_left _ (mem_eraseKey_of_ne st.entries ko p hp hpne)
    · rw [hput]
      simp only [List.length_append, List.length_cons, List.length_nil]
      have hlen := length_eraseKey_of_mem st.entries ko eo hnodup hmem
      omega

/-- C3 witness: a full two-entry store (capacity 2); inserting the new
key `"c"` evicts exactly the oldest-timestamp entry `"b"` (timestamp 3
versus 5) and leaves the size at capacity. -/
theorem c3_witness :
    ((({ entries := [("a", ⟨"A", 5⟩), ("b", ⟨"B", 3⟩)], maxEntries := 2, ttl := 60 }
        : L1Store String).put 7 "c" "C").entries.length ≤ 2) ∧
    alookup ((({ entries := [("a", ⟨"A", 5⟩), ("b", ⟨"B", 3⟩)], maxEntries := 2, ttl := 60 }
        : L1Store String).put 7 "c" "C").entries) "b" = none ∧
    alookup ((({ entries := [("a", ⟨"A", 5⟩), ("b", ⟨"B", 3⟩)], maxEntries := 2, ttl := 60 }
        : L1Store String).put 7 "c" "C").entries) "c" = some ⟨"C", 7⟩ ∧
    ((({ entries := [("a", ⟨"A", 5⟩), ("b", ⟨"B", 3⟩)], maxEntries := 2, ttl := 60 }
        : L1Store String).put 7 "c" "C").entries.length = 2) := by
  have h := c3_l1_bounded_oldest_eviction
    ({ entries := [("a", ⟨"A", 5⟩), ("b", ⟨"B", 3⟩)], maxEntries := 2, ttl := 60 }
      : L1Store String) 7 "c" "C" (by decide) (by decide) (by decide)
  obtain ⟨hb, hrest⟩ := h
  obtain ⟨ko, eo, hold, hmem, hmin, habs, hret, hins, hlen⟩ := hrest rfl rfl
  have hcomp : oldestEntry
      ([("a", ⟨"A", 5⟩), ("b", ⟨"B", 3⟩)] : List (String × CacheEntry String))
      = some ("b", ⟨"B", 3⟩) := rfl
  have hko := Option.some.inj (hold.symm.trans hcomp)
  have hko1 : ko = "b" := congrArg Prod.fst hko
  refine ⟨hb, ?_, hins, hlen⟩
  rw [hko1] at habs
  exact habs

/-- C2: a lookup that misses L1 (expired or absent) while L2 holds a
valid entry is served by L2 (one L2 query, observed on the instrumented
counter), the value is promoted into L1 stamped with the lookup instant,
and a subsequent lookup of the same key within the L1 TTL window is
served from L1 without consulting L2 (counter unchanged, state
unchanged).  (Stated over the spec-modelled `MultiLevelCache`.) -/
theorem c2_read_through_with_promotion {α : Type} (c : MultiLevelCache α)
    (op : String) (args : List String) (kwargs : List (String × String))
    (e : CacheEntry α) (t1 t2 : Nat)
    (hL1 : (c.l1.get t1 (derive op args kwargs)).1 = none)
    (hL2 : alookup c.l2.records (derive op args kwargs) = some e)
    (hL2valid : t1 - e.timestamp < c.l2.ttl)
    (hwin : t2 - t1 < c.l1.ttl) :
    (c.lookup t1 op args kwargs).1 = (true, some e.value) ∧
    ((c.lookup t1 op args kwargs).2).l2Gets = c.l2Gets + 1 ∧
    alookup (((c.lookup t1 op args kwargs).2).l1).entries (derive op args kwargs)
      = some ⟨e.value, t1⟩ ∧
    (((c.lookup t1 op args kwargs).2).lookup t2 op args kwargs).1 = (true, some e.value) ∧
    (((c.lookup t1 op args kwargs).2).lookup t2 op args kwargs).2
      = (c.lookup t1 op args kwargs).2 := by
  rcases hget : c.l1.get t1 (derive op args kwargs) with ⟨o, l1p⟩
  rw [hget] at hL1
  simp only at hL1
  subst hL1
  have hl2 : c.l2.get t1 (derive op args kwargs) = (some e, c.l2) :=
    l2_get_valid_hit c.l2 t1 _ e hL2 hL2valid
  have hr1 : c.lookup t1 op args kwargs
      = ((true, some e.value),
        { l1 := l1p.put t1 (derive op args kwargs) e.value,
          l2 := c.l2, l2Gets := c.l2Gets + 1 }) := by
    unfold MultiLevelCache.lookup
    rw [hget, hl2]
  have hmem2 : alookup (l1p.put t1 (derive op args kwargs) e.value).entries
      (derive op args kwargs) = some ⟨e.value, t1⟩ :=
    L1Store.alookup_put_self l1p t1 (derive op args kwargs) e.value
  have httl : (l1p.put t1 (derive op args kwargs) e.value).ttl = c.l1.ttl := by
    rw [L1Store.ttl_put]
    have hg := L1Store.ttl_get c.l1 t1 (derive op args kwargs)
    rw [hget] at hg
    exact hg
  have hget2 : (l1p.put t1 (derive op args kwargs) e.value).get t2 (derive op args kwargs)
      = (some ⟨e.value, t1⟩, l1p.put t1 (derive op args kwargs) e.value) :=
    l1_get_valid_hit _ t2 _ _ hmem2 (by rw [httl]; exact hwin)
  rw [hr1]
  refine ⟨rfl, rfl, hmem2, ?_, ?_⟩
  · unfold MultiLevelCache.lookup
    dsimp only
    rw [hget2]
  · unfold MultiLevelCache.lookup
    dsimp only
    rw [hget2]

/-- C2 witness: a cold L1 (empty), an L2 record for the key of
`list_sheets` with no arguments written at instant 0 (L2 TTL 300); the
lookup at instant 100 hits L2 (counter 0 → 1) and promotes, the repeated
lookup at instant 110 (inside the 60-second L1 TTL) is served from L1
with the counter still at 1. -/
theorem c2_witness :
    ((({ l1 := { entries := [], maxEntries := 100, ttl := 60 },
         l2 := { records := [(derive "list_sheets" [] [], ⟨"Found 3 sheets", 0⟩)], ttl := 300 },
         l2Gets := 0 } : MultiLevelCache String).lookup 100 "list_sheets" [] []).1
      = (true, some "Found 3 sheets")) ∧
    ((({ l1 := { entries := [], maxEntries := 100, ttl := 60 },
         l2 := { records := [(derive "list_sheets" [] [], ⟨"Found 3 sheets", 0⟩)], ttl := 300 },
         l2Gets := 0 } : MultiLevelCache String).lookup 100 "list_sheets" [] []).2).l2Gets = 1 ∧
    (((({ l1 := { entries := [], maxEntries := 100, ttl := 60 },
          l2 := { records := [(derive "list_sheets" [] [], ⟨"Found 3 sheets", 0⟩)], ttl := 300 },
          l2Gets := 0 } : MultiLevelCache String).lookup 100 "list_sheets" [] []).2).lookup
        110 "list_sheets" [] []).1 = (true, some "Found 3 sheets") ∧
    ((((({ l1 := { entries := [], maxEntries := 100, ttl := 60 },
           l2 := { records := [(derive "list_sheets" [] [], ⟨"Found 3 sheets", 0⟩)], ttl := 300 },
           l2Gets := 0 } : MultiLevelCache String).lookup 100 "list_sheets" [] []).2).lookup
        110 "list_sheets" [] []).2).l2Gets = 1 := by
  have h := c2_read_through_with_promotion
    ({ l1 := { entries := [], maxEntries := 100, ttl := 60 },
       l2 := { records := [(derive "list_sheets" [] [], ⟨"Found 3 sheets", 0⟩)], ttl := 300 },
       l2Gets := 0 } : MultiLevelCache String)
    "list_sheets" [] [] ⟨"Found 3 sheets", 0⟩ 100 110
    rfl (by rw [alookup]; simp) (by decide) (by decide)
  refine ⟨h.1, h.2.1, h.2.2.2.1, ?_⟩
  rw [h.2.2.2.2]
  exact h.2.1

/-- C8: `list_sheets(use_cache=False)` resets the whole shared module
cache to its empty initial state (client, sheets list, and the entire
name-to-id map), not merely bypassing it for the call: whenever the
client step succeeds, the state after the call is the initial cache dict
regardless of the fetch's outcome, so any later operation must recreate
the client (`client = None`) and refetch its data. -/
theorem c8_use_cache_false_resets_module_cache (ttl : Nat) (env : Env)
    (upstream : Except String (List Sheet)) (now : Nat) (ms : ModuleState)
    (c : Client) (c1 : CacheState)
    (hclient : get_smartsheet_client ttl env now ms.cache = (Except.ok c, c1)) :
    ((list_sheets ttl env upstream now false ms).2).cache.client = none ∧
    ((list_sheets ttl env upstream now false ms).2).cache.sheetsList = none ∧
    ((list_sheets ttl env upstream now false ms).2).cache.nameToId = [] ∧
    ((list_sheets ttl env upstream now false ms).2).cache.clientCreatedAt = 0 ∧
    ((list_sheets ttl env upstream now false ms).2).cache.sheetsListFetchedAt = 0 := by
  have hstate : ((list_sheets ttl env upstream now false ms).2).cache = clear_cache c1 := by
    unfold list_sheets
    rw [hclient]
    dsimp only
    unfold list_sheets.fetchAll
    dsimp only
    cases upstream with
    | error e => rfl
    | ok l =>
      rw [if_neg Bool.false_ne_true]
      dsimp only
      rw [get_allowed_sheet_names_cache, get_allowed_sheet_ids_cache]
  rw [hstate]
  exact ⟨rfl, rfl, rfl, rfl, rfl⟩

/-- C8 witness: the theorem applied at a concrete populated state — a
fresh-token environment, the call at instant 5 with `use_cache=False`
leaves the module cache fields at their initial empty values. -/
theorem c8_witness :
    get_smartsheet_client 300
        { token := some "tok", allowedIdsRaw := "", allowedNamesRaw := "" } 5
        initialModuleState.cache
      = (Except.ok { token := "tok" },
         { client := some { token := "tok" }, clientCreatedAt := 5,
           sheetsList := none, sheetsListFetchedAt := 0, nameToId := [],
           clientCreateCount := 1, sheetsFetchCount := 0 }) ∧
    ((list_sheets 300 { token := some "tok", allowedIdsRaw := "", allowedNamesRaw := "" }
        (Except.ok []) 5 false initialModuleState).2).cache.client = none ∧
    ((list_sheets 300 { token := some "tok", allowedIdsRaw := "", allowedNamesRaw := "" }
        (Except.ok []) 5 false initialModuleState).2).cache.sheetsList = none ∧
    ((list_sheets 300 { token := some "tok", allowedIdsRaw := "", allowedNamesRaw := "" }
        (Except.ok []) 5 false initialModuleState).2).cache.nameToId = [] := by
  have h := c8_use_cache_false_resets_module_cache 300
    { token := some "tok", allowedIdsRaw := "", allowedNamesRaw := "" }
    (Except.ok []) 5 initialModuleState { token := "tok" }
    { client := some { token := "tok" }, clientCreatedAt := 5,
      sheetsList := none, sheetsListFetchedAt := 0, nameToId := [],
      clientCreateCount := 1, sheetsFetchCount := 0 } rfl
  exact ⟨rfl, h.1, h.2.1, h.2.2.1⟩

/-- Shape of every `list_sheets` output: either an absorbed internal
exception rendered as an `"Error listing sheets: ..."` string, or the
normal formatted listing. -/
theorem list_sheets_output_shape (ttl : Nat) (env : Env)
    (upstream : Except String (List Sheet)) (now : Nat) (useCache : Bool)
    (ms : ModuleState) :
    (∃ e, (list_sheets ttl env upstream now useCache ms).1
        = "Error listing sheets: " ++ e) ∨
    (∃ sheets, (list_sheets ttl env upstream now useCache ms).1
        = formatSheetsResult sheets) := by
  unfold list_sheets
  rcases h1 : get_smartsheet_client ttl env now ms.cache with ⟨res, c1⟩
  cases res with
  | error e => exact Or.inl ⟨e, rfl⟩
  | ok cl =>
    dsimp only
    rcases h2 : list_sheets.fetchAll ttl upstream now useCache c1 with ⟨res2, c2⟩
    cases res2 with
    | error e => exact Or.inl ⟨e, rfl⟩
    | ok l => exact Or.inr ⟨_, rfl⟩

/-- Shape of every `get_sheet` output: the normal formatted sheet, or one
of the finitely many `"Error ..."` strings the function returns. -/
theorem get_sheet_output_shape (ttl : Nat) (env : Env)
    (upstream : Except String (List Sheet)) (sheetFetch : Except String SheetData)
    (now : Nat) (ms : ModuleState) (sid : String) :
    (∃ sd, (get_sheet ttl env upstream sheetFetch now ms sid).1 = formatSheetData sd) ∨
    (∃ e, (get_sheet ttl env upstream sheetFetch now ms sid).1
        = "Error getting sheet: " ++ e) ∨
    (get_sheet ttl env upstream sheetFetch now ms sid).1
        = "Error: sheet_id parameter is required" ∨
    (get_sheet ttl env upstream sheetFetch now ms sid).1
        = "Error: Sheet '" ++ sid ++ "' not found" ∨
    (∃ n, (get_sheet ttl env upstream sheetFetch now ms sid).1
        = "Error: Access to sheet '" ++ n ++ "' is not permitted.") := by
  unfold get_sheet
  by_cases hsid : sid = ""
  · rw [if_pos hsid]
    exact Or.inr (Or.inr (Or.inl rfl))
  · rw [if_neg hsid]
    rcases h1 : get_smartsheet_client ttl env now ms.cache with ⟨res, c1⟩
    cases res with
    | error e => exact Or.inr (Or.inl ⟨e, rfl⟩)
    | ok cl =>
      dsimp only
      rcases h2 : resolve_sheet_id ttl upstream now c1 sid with ⟨res2, c2⟩
      cases res2 with
      | error e => exact Or.inr (Or.inl ⟨e, rfl⟩)
      | ok rpair =>
        obtain ⟨rid, rname⟩ := rpair
        cases rid with
        | none => exact Or.inr (Or.inr (Or.inr (Or.inl rfl)))
        | some i =>
          dsimp only
          by_cases hi : i = 0
          · rw [if_pos hi]
            exact Or.inr (Or.inr (Or.inr (Or.inl rfl)))
          · rw [if_neg hi]
            by_cases hallow : (!is_sheet_allowed
                (get_allowed_sheet_ids env { ms with cache := c2 }).1
                (get_allowed_sheet_names env
                  (get_allowed_sheet_ids env { ms with cache := c2 }).2).1
                (some i) rname) = true
            · rw [if_pos hallow]
              exact Or.inr (Or.inr (Or.inr (Or.inr ⟨_, rfl⟩)))
            · rw [if_neg hallow]
              cases sheetFetch with
              | error e => exact Or.inr (Or.inl ⟨e, rfl⟩)
              | ok sd => exact Or.inl ⟨sd, rfl⟩

/-- C7: no failure inside the tool layer reaches the caller as an
exception.  Every `list_sheets` output and every `get_sheet` output is a
plain string that is either the normal formatted result or one of the
function's `"Error ..."` messages (the embedding's return type `String`
reflects the `try/except Exception` wrapped around the whole body of
every tool of `smartsheet_tools.py`), and an internal raise — here a
failing client creation — is converted verbatim into the corresponding
`"Error ..."` message string. -/
theorem c7_no_exception_reaches_user (ttl : Nat) (env : Env)
    (upstream : Except String (List Sheet)) (sheetFetch : Except String SheetData)
    (now : Nat) (useCache : Bool) (ms : ModuleState) (sid : String) :
    ((∃ e, (list_sheets ttl env upstream now useCache ms).1
        = "Error listing sheets: " ++ e) ∨
     (∃ sheets, (list_sheets ttl env upstream now useCache ms).1
        = formatSheetsResult sheets)) ∧
    ((∃ sd, (get_sheet ttl env upstream sheetFetch now ms sid).1 = formatSheetData sd) ∨
     (∃ e, (get_sheet ttl env upstream sheetFetch now ms sid).1
        = "Error getting sheet: " ++ e) ∨
     (get_sheet ttl env upstream sheetFetch now ms sid).1
        = "Error: sheet_id parameter is required" ∨
     (get_sheet ttl env upstream sheetFetch now ms sid).1
        = "Error: Sheet '" ++ sid ++ "' not found" ∨
     (∃ n, (get_sheet ttl env upstream sheetFetch now ms sid).1
        = "Error: Access to sheet '" ++ n ++ "' is not permitted.")) ∧
    (∀ e c1, get_smartsheet_client ttl env now ms.cache = (Except.error e, c1) →
      (list_sheets ttl env upstream now useCache ms).1 = "Error listing sheets: " ++ e ∧
      (sid ≠ "" →
        (get_sheet ttl env upstream sheetFetch now ms sid).1
          = "Error getting sheet: " ++ e)) := by
  refine ⟨list_sheets_output_shape ttl env upstream now useCache ms,
    get_sheet_output_shape ttl env upstream sheetFetch now ms sid, ?_⟩
  intro e c1 h
  constructor
  · unfold list_sheets
    rw [h]
  · intro hsid
    unfold get_sheet
    rw [if_neg hsid, h]

/-- C7 witness: with no access token configured, both tools return the
verbatim `"Error ..."` string produced from the internal `ValueError`
rather than letting it escape. -/
theorem c7_witness :
    (list_sheets 300 { token := none, allowedIdsRaw := "", allowedNamesRaw := "" }
        (Except.ok []) 0 true initialModuleState).1
      = "Error listing sheets: "
        ++ "SMARTSHEET_ACCESS_TOKEN environment variable is not set" ∧
    (get_sheet 300 { token := none, allowedIdsRaw := "", allowedNamesRaw := "" }
        (Except.ok []) (Except.ok { name := "S", columns := [], rows := [] }) 0
        initialModuleState "Budget").1
      = "Error getting sheet: "
        ++ "SMARTSHEET_ACCESS_TOKEN environment variable is not set" := by
  have h := (c7_no_exception_reaches_user 300
    { token := none, allowedIdsRaw := "", allowedNamesRaw := "" }
    (Except.ok []) (Except.ok { name := "S", columns := [], rows := [] }) 0 true
    initialModuleState "Budget").2.2
    "SMARTSHEET_ACCESS_TOKEN environment variable is not set"
    initialCacheState rfl
  exact ⟨h.1, h.2 (by decide)⟩

end SmartsheetAgent
